import Mathlib

/-!
Shallow embedding of the LuthierGram client-side persistence layer
(`lib/db.ts`, built on Dexie/IndexedDB) and verification of its
specification.

Modelling conventions:
* A Dexie table is a list of records; the primary key is the `id` field.
* `Date` values are integers (milliseconds since the epoch); the impure
  `new Date()` calls become explicit `now` parameters, and
  `crypto.randomUUID()` becomes an explicit fresh-id parameter.
* A Dexie `UpdateSpec` (`Partial<T>` in the source) is a structure of
  options: `none` means the field is not mentioned in the update object;
  for optional fields, `some none` models an explicit `undefined`, which
  Dexie treats as deletion of the key.
* JavaScript truthiness on optional strings (`if (photo.buildId)`,
  `!photo.buildId`) is `jsTruthy`: `undefined` and the empty string are
  falsy.
* An IndexedDB index on `buildId` only contains records whose `buildId`
  is defined, so `where('buildId').equals(x)` matches `buildId == some x`
  and `where('buildId').above('')` matches defined keys greater than `''`.
-/

namespace LuthierGram

/-- Photo metadata block from `types/index.ts` (`PhotoMetadata`). -/
structure PhotoMetadata where
  width : Option Nat := none
  height : Option Nat := none
  cameraMake : Option String := none
  cameraModel : Option String := none
  focalLength : Option String := none
  aperture : Option String := none
  isoEquivalent : Option Nat := none
  exposureTime : Option String := none
  deriving DecidableEq

/-- Photo record from `types/index.ts` (`Photo`). -/
structure Photo where
  id : String
  googlePhotoId : String
  url : String
  thumbnail : String
  timestamp : Int
  filename : String
  buildId : Option String := none
  caption : Option String := none
  scheduledDate : Option Int := none
  posted : Bool := false
  metadata : Option PhotoMetadata := none
  deriving DecidableEq

/-- Build record from `types/index.ts` (`Build`). -/
structure Build where
  id : String
  name : String
  woodType : String
  style : String
  startDate : Int
  clientName : Option String := none
  notes : Option String := none
  photos : List Photo := []
  createdAt : Int
  updatedAt : Int
  deriving DecidableEq

/-- The `buildContext` block embedded in a `PostContent`. -/
structure BuildContext where
  buildName : String
  woodType : String
  stage : String
  deriving DecidableEq

/-- PostContent record from `types/index.ts`. -/
structure PostContent where
  photoId : String
  caption : String
  hashtags : List String
  scheduledDate : Int
  buildContext : BuildContext
  deriving DecidableEq

/-- ContentTemplate record from `types/index.ts`; `vars` models the source
field `variables` (a Lean keyword). -/
structure ContentTemplate where
  id : String
  name : String
  stage : String
  template : String
  vars : List String
  deriving DecidableEq

/-- CalendarEvent record from `types/index.ts`. -/
structure CalendarEvent where
  id : String
  title : String
  date : Int
  photo : Photo
  build : Build
  content : PostContent
  deriving DecidableEq

/-- The five tables of `LuthierGramDB` (`lib/db.ts`, class `LuthierDatabase`). -/
structure LuthierDatabase where
  builds : List Build := []
  photos : List Photo := []
  postContents : List PostContent := []
  contentTemplates : List ContentTemplate := []
  calendarEvents : List CalendarEvent := []
  deriving DecidableEq

/-- JavaScript truthiness of an optional string: `undefined` and `''` are falsy. -/
def jsTruthy : Option String → Bool
  | none => false
  | some s => s != ""

/-- Dexie `Table.bulkAdd`: records whose primary key already exists fail to be
added (the others are kept). -/
def bulkAdd {α : Type} (getId : α → String) (t : List α) (rs : List α) : List α :=
  rs.foldl (fun acc r => if acc.any (fun x => getId x == getId r) then acc else acc ++ [r]) t

/-- A Dexie `UpdateSpec<Photo>` as passed by the repository operations.
`none`: field absent from the update object; for an optional field,
`some none` is an explicit `undefined` (Dexie deletes the key). -/
structure PhotoUpdate where
  buildId : Option (Option String) := none
  caption : Option (Option String) := none
  scheduledDate : Option (Option Int) := none
  posted : Option Bool := none
  filename : Option String := none
  deriving DecidableEq

/-- Apply a `PhotoUpdate` to a stored photo (Dexie key-path merge). -/
def applyPhotoUpdate (u : PhotoUpdate) (p : Photo) : Photo :=
  { p with
    buildId := u.buildId.getD p.buildId
    caption := u.caption.getD p.caption
    scheduledDate := u.scheduledDate.getD p.scheduledDate
    posted := u.posted.getD p.posted
    filename := u.filename.getD p.filename }

/-- `db.photos.update(photoId, u)`: update the record with primary key
`photoId` if present, otherwise do nothing. -/
def photosUpdate (t : List Photo) (photoId : String) (u : PhotoUpdate) : List Photo :=
  t.map (fun p => if p.id == photoId then applyPhotoUpdate u p else p)

/-- A Dexie `UpdateSpec<Build>` as passed by the repository operations. -/
structure BuildUpdate where
  name : Option String := none
  woodType : Option String := none
  style : Option String := none
  clientName : Option (Option String) := none
  notes : Option (Option String) := none
  photos : Option (List Photo) := none
  updatedAt : Option Int := none
  deriving DecidableEq

/-- Apply a `BuildUpdate` to a stored build (Dexie key-path merge). -/
def applyBuildUpdate (u : BuildUpdate) (b : Build) : Build :=
  { b with
    name := u.name.getD b.name
    woodType := u.woodType.getD b.woodType
    style := u.style.getD b.style
    clientName := u.clientName.getD b.clientName
    notes := u.notes.getD b.notes
    photos := u.photos.getD b.photos
    updatedAt := u.updatedAt.getD b.updatedAt }

/-- `db.builds.update(buildId, u)`: update the record with primary key
`buildId` if present, otherwise do nothing. -/
def buildsUpdate (t : List Build) (buildId : String) (u : BuildUpdate) : List Build :=
  t.map (fun b => if b.id == buildId then applyBuildUpdate u b else b)

namespace buildOperations

/-- `buildOperations.delete(id)` from `lib/db.ts`:
`await db.photos.where('buildId').equals(id).modify({});`
`await db.builds.delete(id);`
The `modify({})` applies an empty change set ({} mentions no field) to every
photo whose `buildId` equals `id`, then the build row is deleted. -/
def delete (db : LuthierDatabase) (id : String) : LuthierDatabase :=
  let photos1 := db.photos.map (fun p =>
    if p.buildId == some id then applyPhotoUpdate {} p else p)
  let db1 := { db with photos := photos1 }
  { db1 with builds := db1.builds.filter (fun b => b.id != id) }

end buildOperations

namespace photoOperations

/-- `photoOperations.addFromGoogle(googlePhotos)`: `db.photos.bulkAdd(...)`. -/
def addFromGoogle (db : LuthierDatabase) (googlePhotos : List Photo) : LuthierDatabase :=
  { db with photos := bulkAdd Photo.id db.photos googlePhotos }

/-- `photoOperations.getByBuildId(buildId)`:
`db.photos.where('buildId').equals(buildId).toArray()`. -/
def getByBuildId (db : LuthierDatabase) (buildId : String) : List Photo :=
  db.photos.filter (fun p => p.buildId == some buildId)

/-- `photoOperations.getUnassigned()`:
`db.photos.filter(photo => !photo.buildId).toArray()`. -/
def getUnassigned (db : LuthierDatabase) : List Photo :=
  db.photos.filter (fun p => !(jsTruthy p.buildId))

/-- `photoOperations.assignToBuild(photoId, buildId)` from `lib/db.ts`:
updates the photo row first, then, if the build exists and the photo exists,
appends the (now updated) photo to the build's `photos` array. -/
def assignToBuild (db : LuthierDatabase) (photoId buildId : String) (now : Int) : LuthierDatabase :=
  let db1 := { db with photos := photosUpdate db.photos photoId { buildId := some (some buildId) } }
  match db1.builds.find? (fun b => b.id == buildId) with
  | none => db1
  | some build =>
    match db1.photos.find? (fun p => p.id == photoId) with
    | none => db1
    | some photo =>
      let u : BuildUpdate := { photos := some (build.photos ++ [photo]), updatedAt := some now }
      { db1 with builds := buildsUpdate db1.builds buildId u }

/-- `photoOperations.unassignFromBuild(photoId)` from `lib/db.ts`:
guarded by the truthiness test `if (photo && photo.buildId)`; clears the
photo's `buildId` (an explicit `undefined` in the update spec) and removes
the photo from its former build's `photos` array. -/
def unassignFromBuild (db : LuthierDatabase) (photoId : String) (now : Int) : LuthierDatabase :=
  match db.photos.find? (fun p => p.id == photoId) with
  | none => db
  | some photo =>
    if jsTruthy photo.buildId then
      let buildId := photo.buildId.getD ""
      let db1 := { db with photos := photosUpdate db.photos photoId { buildId := some none } }
      match db1.builds.find? (fun b => b.id == buildId) with
      | none => db1
      | some build =>
        let u : BuildUpdate :=
          { photos := some (build.photos.filter (fun p => p.id != photoId)),
            updatedAt := some now }
        { db1 with builds := buildsUpdate db1.builds buildId u }
    else db

/-- `photoOperations.bulkAssignToBuild(photoIds, buildId)` from `lib/db.ts`:
inside one transaction, updates every listed photo's `buildId`, then, if the
build exists, appends the listed photos (`where('id').anyOf(photoIds)`) to the
build's `photos` array.  Nothing in this body throws, so the transaction
commits whatever it did. -/
def bulkAssignToBuild (db : LuthierDatabase) (photoIds : List String) (buildId : String) (now : Int) : LuthierDatabase :=
  let db1 := { db with
    photos := photoIds.foldl
      (fun t photoId => photosUpdate t photoId { buildId := some (some buildId) }) db.photos }
  match db1.builds.find? (fun b => b.id == buildId) with
  | none => db1
  | some build =>
    let photos := db1.photos.filter (fun p => photoIds.contains p.id)
    let u : BuildUpdate := { photos := some (build.photos ++ photos), updatedAt := some now }
    { db1 with builds := buildsUpdate db1.builds buildId u }

/-- `photoOperations.update(photoId, updates)`: `db.photos.update(photoId, updates)`. -/
def update (db : LuthierDatabase) (photoId : String) (updates : PhotoUpdate) : LuthierDatabase :=
  { db with photos := photosUpdate db.photos photoId updates }

end photoOperations

/-- The argument object of `photoOperations.filter` (all fields optional). -/
structure PhotoFilterArgs where
  buildId : Option String := none
  isAssigned : Option Bool := none
  dateRange : Option (Int × Int) := none
  posted : Option Bool := none
  deriving DecidableEq

namespace photoOperations

/-- `photoOperations.filter(filters)` from `lib/db.ts`: chains collection
filters; the `buildId` criterion is guarded by truthiness
(`if (filters.buildId)`), the other three by `!== undefined` tests. -/
def filter (db : LuthierDatabase) (filters : PhotoFilterArgs) : List Photo :=
  let c0 := db.photos
  let c1 := if jsTruthy filters.buildId
    then c0.filter (fun p => p.buildId == filters.buildId) else c0
  let c2 := match filters.isAssigned with
    | none => c1
    | some b =>
      if b then c1.filter (fun p => p.buildId != none)
      else c1.filter (fun p => p.buildId == none)
  let c3 := match filters.dateRange with
    | none => c2
    | some r => c2.filter (fun p => decide (r.1 ≤ p.timestamp) && decide (p.timestamp ≤ r.2))
  match filters.posted with
  | none => c3
  | some b => c3.filter (fun p => p.posted == b)

end photoOperations

/-- Milliseconds in one day. -/
def msPerDay : Int := 86400000

/-- `new Date(date); d.setHours(0,0,0,0)` — midnight of `date`'s calendar day
in local time, for a fixed local-time offset `tz` (local = UTC + `tz` ms). -/
def startOfDay (tz t : Int) : Int := t - (t + tz) % msPerDay

/-- `new Date(date); d.setHours(23,59,59,999)` — last millisecond of `date`'s
calendar day in local time. -/
def endOfDay (tz t : Int) : Int := startOfDay tz t + (msPerDay - 1)

namespace calendarOperations

/-- Dexie `where('date').between(lower, upper, includeLower, includeUpper)`
on the calendar-events table. -/
def between (t : List CalendarEvent) (lower upper : Int) (includeLower includeUpper : Bool) : List CalendarEvent :=
  t.filter (fun e =>
    (if includeLower then decide (lower ≤ e.date) else decide (lower < e.date)) &&
    (if includeUpper then decide (e.date ≤ upper) else decide (e.date < upper)))

/-- `calendarOperations.getByDateRange(start, end)`:
`db.calendarEvents.where('date').between(start, end, true, true)`. -/
def getByDateRange (db : LuthierDatabase) (start stop : Int) : List CalendarEvent :=
  between db.calendarEvents start stop true true

/-- `calendarOperations.getByDate(date)`: computes `startOfDay`/`endOfDay`
with `setHours` and queries `between(startOfDay, endOfDay, true, true)`. -/
def getByDate (tz : Int) (db : LuthierDatabase) (date : Int) : List CalendarEvent :=
  between db.calendarEvents (startOfDay tz date) (endOfDay tz date) true true

end calendarOperations

/-- The snapshot returned by `dbUtils.exportData`. -/
structure ExportedData where
  builds : List Build
  photos : List Photo
  templates : List ContentTemplate
  events : List CalendarEvent
  deriving DecidableEq

/-- The (all-optional) argument of `dbUtils.importData`. -/
structure ImportedData where
  builds : Option (List Build) := none
  photos : Option (List Photo) := none
  templates : Option (List ContentTemplate) := none
  events : Option (List CalendarEvent) := none
  deriving DecidableEq

/-- The record returned by `dbUtils.getStats`. -/
structure Stats where
  totalBuilds : Nat
  totalPhotos : Nat
  assignedPhotos : Nat
  unassignedPhotos : Nat
  scheduledPosts : Nat
  deriving DecidableEq

/-- IndexedDB key test for `where('buildId').above(bound)`: records with an
undefined `buildId` are absent from the index; defined string keys compare
lexicographically by code point (`List Char` order on the string data). -/
def keyAbove (k : Option String) (bound : String) : Bool :=
  match k with
  | none => false
  | some s => decide (bound.data < s.data)

namespace dbUtils

/-- `dbUtils.clearAll()`: clears all five tables in one transaction. -/
def clearAll (db : LuthierDatabase) : LuthierDatabase :=
  { db with builds := [], photos := [], postContents := [],
            contentTemplates := [], calendarEvents := [] }

/-- `dbUtils.exportData()`: snapshot of builds, photos, templates, events
(post contents are not exported). -/
def exportData (db : LuthierDatabase) : ExportedData :=
  { builds := db.builds, photos := db.photos,
    templates := db.contentTemplates, events := db.calendarEvents }

/-- `dbUtils.importData(data)`: bulk-adds each provided list in one
transaction. -/
def importData (db : LuthierDatabase) (data : ImportedData) : LuthierDatabase :=
  let db1 := match data.builds with
    | some bs => { db with builds := bulkAdd Build.id db.builds bs }
    | none => db
  let db2 := match data.photos with
    | some ps => { db1 with photos := bulkAdd Photo.id db1.photos ps }
    | none => db1
  let db3 := match data.templates with
    | some ts => { db2 with contentTemplates := bulkAdd ContentTemplate.id db2.contentTemplates ts }
    | none => db2
  match data.events with
  | some es => { db3 with calendarEvents := bulkAdd CalendarEvent.id db3.calendarEvents es }
  | none => db3

/-- `dbUtils.getStats()` from `lib/db.ts`: table counts, with
`assignedPhotos` computed as `db.photos.where('buildId').above('').count()`. -/
def getStats (db : LuthierDatabase) : Stats :=
  let totalBuilds := db.builds.length
  let totalPhotos := db.photos.length
  let assignedPhotos := (db.photos.filter (fun p => keyAbove p.buildId "")).length
  { totalBuilds := totalBuilds
    totalPhotos := totalPhotos
    assignedPhotos := assignedPhotos
    unassignedPhotos := totalPhotos - assignedPhotos
    scheduledPosts := db.calendarEvents.length }

end dbUtils

/-- Spec-side (§3/§8) bidirectional consistency invariant: every build's
embedded `photos` list is, as a multiset, exactly the photo records whose
`buildId` equals the build's id (no duplicates, no omissions). -/
def photosConsistent (db : LuthierDatabase) : Prop :=
  ∀ b ∈ db.builds, b.photos.Perm (db.photos.filter (fun p => p.buildId == some b.id))

/-- Spec-side calendar-day index of an instant for local-time offset `tz`:
two instants share it exactly when they fall on the same local calendar
date. -/
def localDay (tz t : Int) : Int := (t + tz) / msPerDay

instance (db : LuthierDatabase) : Decidable (photosConsistent db) := by
  unfold photosConsistent
  infer_instance

/-- Sample photo used by the concrete stores below. -/
def mkPhoto (i : String) (b : Option String) : Photo :=
  { id := i, googlePhotoId := i, url := "u", thumbnail := "t",
    timestamp := 0, filename := "f", buildId := b }

/-- Sample build used by the concrete stores below. -/
def mkBuild (i : String) (ps : List Photo) : Build :=
  { id := i, name := "n", woodType := "w", style := "s",
    startDate := 0, photos := ps, createdAt := 0, updatedAt := 0 }

/-- Store with one build (id `b1`) and one photo assigned to it. -/
def dbDangling : LuthierDatabase :=
  { builds := [mkBuild ("b1") [mkPhoto ("p1") (some ("b1"))]],
    photos := [mkPhoto ("p1") (some ("b1"))] }

/-- Consistent store with photo `p1` assigned to build `A`, and a second
empty build `B`. -/
def dbTwoBuilds : LuthierDatabase :=
  { builds := [mkBuild ("A") [mkPhoto ("p1") (some ("A"))], mkBuild ("B") []],
    photos := [mkPhoto ("p1") (some ("A"))] }

/-- Store with a single unassigned photo `p1` and no builds at all. -/
def dbNoBuilds : LuthierDatabase := { photos := [mkPhoto ("p1") none] }

/-- Store whose only build has the empty string as id, plus one unassigned
photo (such a build is importable through `dbUtils.importData`). -/
def dbBlankBuild : LuthierDatabase :=
  { builds := [mkBuild ("") []], photos := [mkPhoto ("p1") none] }

/-- Store with a single photo whose `buildId` is present but equal to the
empty string. -/
def dbBlankRef : LuthierDatabase := { photos := [mkPhoto ("p1") (some (""))] }

/-- Small store with one build, one assigned photo, one template, one
calendar event and one post content, used as witness input. -/
def dbSampleFull : LuthierDatabase :=
  { builds := [mkBuild ("A") [mkPhoto ("p1") (some ("A"))]],
    photos := [mkPhoto ("p1") (some ("A"))],
    postContents := [{ photoId := "p1", caption := "c", hashtags := [], scheduledDate := 0,
                       buildContext := { buildName := "n", woodType := "w", stage := "s" } }],
    contentTemplates := [{ id := "t1", name := "n", stage := "s", template := "x", vars := [] }],
    calendarEvents := [{ id := "e1", title := "t", date := 0, photo := mkPhoto ("p1") (some ("A")),
                         build := mkBuild ("A") [],
                         content := { photoId := "p1", caption := "c", hashtags := [],
                                      scheduledDate := 0,
                                      buildContext := { buildName := "n", woodType := "w",
                                                        stage := "s" } } }] }

/-- Store with one empty build of id `B` and one unassigned photo `p1`. -/
def dbOneBuild : LuthierDatabase :=
  { builds := [mkBuild ("B") []], photos := [mkPhoto ("p1") none] }

end LuthierGram

namespace LuthierGram

/-- The empty list of characters is below a string's data exactly when the
string is non-empty (code-point lexicographic order). -/
theorem nil_lt_data (s : String) : (([] : List Char) < s.data) ↔ s ≠ "" := by
  obtain ⟨data⟩ := s
  rw [show ("" : String) = ⟨[]⟩ from rfl]
  cases data with
  | nil =>
    constructor
    · intro h
      exact absurd h (by intro h2; nomatch h2)
    · intro h
      exact absurd rfl h
  | cons c cs =>
    constructor
    · intro _ he
      nomatch he
    · intro _
      exact List.nil_lt_cons c cs

/-- The IndexedDB bound `above('')` on the `buildId` index selects exactly the
truthy back-references: a defined, non-empty `buildId`. -/
theorem keyAbove_blank (b : Option String) : keyAbove b ("") = jsTruthy b := by
  cases b with
  | none => rfl
  | some s =>
    show decide (("" : String).data < s.data) = (s != "")
    rcases eq_or_ne s ("") with rfl | hs
    · rfl
    · have h1 : (([] : List Char) < s.data) := (nil_lt_data s).mpr hs
      have h2 : (s != "") = true := bne_iff_ne.mpr hs
      rw [h2, decide_eq_true h1]

/-- An update applied through `photosUpdate` never changes a photo's id. -/
theorem applyPhotoUpdate_preserves_id (u : PhotoUpdate) (p : Photo) :
    (applyPhotoUpdate u p).id = p.id := rfl

/-- An update applied through `buildsUpdate` never changes a build's id. -/
theorem applyBuildUpdate_preserves_id (u : BuildUpdate) (b : Build) :
    (applyBuildUpdate u b).id = b.id := rfl

/-- Folding per-photo table updates over a list of ids is a single map over
the table with the per-element fold. -/
theorem foldl_photosUpdate (u : PhotoUpdate) : ∀ (pids : List String) (t : List Photo),
    pids.foldl (fun acc pid => photosUpdate acc pid u) t =
      t.map (fun x => pids.foldl (fun y pid => if y.id == pid then applyPhotoUpdate u y else y) x)
  | [], t => by simp
  | a :: l, t => by
    simp only [List.foldl_cons]
    rw [foldl_photosUpdate u l (photosUpdate t a u)]
    simp only [photosUpdate, List.map_map]
    rfl

/-- The per-element effect of the `bulkAssignToBuild` update loop: a photo is
re-pointed at the target build exactly when its id is listed. -/
theorem foldStep_buildId (bid : String) : ∀ (pids : List String) (x : Photo),
    pids.foldl (fun y pid =>
        if y.id == pid then applyPhotoUpdate { buildId := some (some bid) } y else y) x =
      (if pids.contains x.id then applyPhotoUpdate { buildId := some (some bid) } x else x)
  | [], x => by simp
  | a :: l, x => by
    simp only [List.foldl_cons, List.contains_cons]
    by_cases h : (x.id == a) = true
    · rw [if_pos h, foldStep_buildId bid l]
      have hid : (applyPhotoUpdate { buildId := some (some bid) } x).id = x.id := rfl
      have hidem : applyPhotoUpdate { buildId := some (some bid) }
          (applyPhotoUpdate { buildId := some (some bid) } x)
          = applyPhotoUpdate { buildId := some (some bid) } x := rfl
      rw [hid, hidem, ite_self, h, Bool.true_or, if_pos rfl]
    · have hf : (x.id == a) = false := by simpa using h
      rw [if_neg h, foldStep_buildId bid l, hf, Bool.false_or]

/-- The build found by `find?` is sent by `buildsUpdate` to its updated copy,
which is therefore in the updated table. -/
theorem buildsUpdate_self_mem (t : List Build) (bid : String) (u : BuildUpdate) (B : Build)
    (hf : t.find? (fun b => b.id == bid) = some B) :
    applyBuildUpdate u B ∈ buildsUpdate t bid u := by
  unfold buildsUpdate
  refine List.mem_map.mpr ⟨B, List.mem_of_find?_eq_some hf, ?_⟩
  rw [if_pos (List.find?_some hf)]

/-- Looking a photo up by its key after a keyed update returns the updated
record. -/
theorem find?_photosUpdate (pid : String) (u : PhotoUpdate) : ∀ (t : List Photo),
    (photosUpdate t pid u).find? (fun p => p.id == pid) =
      (t.find? (fun p => p.id == pid)).map (applyPhotoUpdate u)
  | [] => rfl
  | a :: t => by
    simp only [photosUpdate, List.map_cons]
    by_cases h : (a.id == pid) = true
    · rw [if_pos h]
      rw [@List.find?_cons_of_pos _ (fun p => p.id == pid) (applyPhotoUpdate u a) _
            (by simpa [applyPhotoUpdate_preserves_id] using h),
          @List.find?_cons_of_pos _ (fun p => p.id == pid) a t h]
      rfl
    · rw [if_neg h]
      rw [@List.find?_cons_of_neg _ (fun p => p.id == pid) a _ h,
          @List.find?_cons_of_neg _ (fun p => p.id == pid) a t h]
      exact find?_photosUpdate pid u t

/-- Looking a build up by its key after a keyed update returns the updated
record. -/
theorem find?_buildsUpdate (bid : String) (u : BuildUpdate) : ∀ (t : List Build),
    (buildsUpdate t bid u).find? (fun b => b.id == bid) =
      (t.find? (fun b => b.id == bid)).map (applyBuildUpdate u)
  | [] => rfl
  | a :: t => by
    simp only [buildsUpdate, List.map_cons]
    by_cases h : (a.id == bid) = true
    · rw [if_pos h]
      rw [@List.find?_cons_of_pos _ (fun b => b.id == bid) (applyBuildUpdate u a) _
            (by simpa [applyBuildUpdate_preserves_id] using h),
          @List.find?_cons_of_pos _ (fun b => b.id == bid) a t h]
      rfl
    · rw [if_neg h]
      rw [@List.find?_cons_of_neg _ (fun b => b.id == bid) a _ h,
          @List.find?_cons_of_neg _ (fun b => b.id == bid) a t h]
      exact find?_buildsUpdate bid u t

/-- Every element of an updated builds table is either an untouched build of a
different key or the updated copy of a build with the written key. -/
theorem mem_buildsUpdate (t : List Build) (bid : String) (u : BuildUpdate) (B2 : Build)
    (h : B2 ∈ buildsUpdate t bid u) :
    (∃ b ∈ t, (b.id == bid) = false ∧ B2 = b) ∨
    (∃ b ∈ t, (b.id == bid) = true ∧ B2 = applyBuildUpdate u b) := by
  unfold buildsUpdate at h
  rcases List.mem_map.mp h with ⟨b, hb, he⟩
  by_cases hc : (b.id == bid) = true
  · right
    refine ⟨b, hb, hc, ?_⟩
    rw [← he, if_pos hc]
  · left
    refine ⟨b, hb, by simpa using hc, ?_⟩
    rw [← he, if_neg hc]

/-- One step of Dexie `bulkAdd`. -/
theorem bulkAdd_cons {α : Type} (getId : α → String) (t : List α) (r : α) (rs : List α) :
    bulkAdd getId t (r :: rs) =
      bulkAdd getId (if t.any (fun x => getId x == getId r) then t else t ++ [r]) rs := rfl

/-- `bulkAdd` into a table is a plain append when all keys involved are
pairwise distinct. -/
theorem bulkAdd_of_nodup {α : Type} (getId : α → String) (rs t : List α)
    (h : ((t ++ rs).map getId).Nodup) : bulkAdd getId t rs = t ++ rs := by
  induction rs generalizing t with
  | nil => simp [bulkAdd]
  | cons r rs ih =>
    have hnotin : getId r ∉ t.map getId := by
      rw [List.map_append] at h
      have hd := (List.nodup_append.mp h).2.2
      intro hin
      exact hd hin (by simp)
    have hna : t.any (fun x => getId x == getId r) = false := by
      rw [List.any_eq_false]
      intro x hx
      simp only [beq_iff_eq]
      intro hxe
      exact hnotin (hxe ▸ List.mem_map_of_mem getId hx)
    rw [bulkAdd_cons, hna]
    simp only [Bool.false_eq_true, if_false]
    have h2 : (((t ++ [r]) ++ rs).map getId).Nodup := by
      rw [List.append_assoc]
      simpa using h
    rw [ih (t ++ [r]) h2, List.append_assoc]
    rfl

/-- `unassignFromBuild` on a photo that exists, has a truthy (non-empty)
`buildId`, and whose build exists: the photo's `buildId` key is deleted and
the build's embedded list is filtered by photo id. -/
theorem unassign_found (db : LuthierDatabase) (pid : String) (now : Int) (P : Photo)
    (bid : String) (B1 : Build)
    (hP : db.photos.find? (fun p => p.id == pid) = some P)
    (hPb : P.buildId = some bid) (hbid : bid ≠ "")
    (hB1 : db.builds.find? (fun b => b.id == bid) = some B1) :
    photoOperations.unassignFromBuild db pid now =
      { db with photos := photosUpdate db.photos pid { buildId := some none },
                builds := buildsUpdate db.builds bid
                  { photos := some (B1.photos.filter (fun p => p.id != pid)),
                    updatedAt := some now } } := by
  have ht : jsTruthy (some bid) = true := by
    simpa [jsTruthy] using hbid
  unfold photoOperations.unassignFromBuild
  simp only [hP, hPb, ht, if_true, Option.getD_some, hB1]

/-- Claim C1 (code bug): `buildOperations.delete` is specified to clear the
`buildId` of every photo assigned to the deleted build, but the code runs
`modify({})`, which changes nothing: after deleting build `b1`, the build row
is gone while photo `p1` still carries the dangling `buildId = b1`. -/
theorem buildDelete_dangling :
    (buildOperations.delete dbDangling ("b1")).builds = [] ∧
    (buildOperations.delete dbDangling ("b1")).photos.find? (fun p => p.id == "p1")
      = some (mkPhoto ("p1") (some ("b1"))) := by decide

/-- Claim C2 (code bug): the bidirectional consistency invariant does not
survive every mutating operation: from a consistent store in which photo `p1`
is assigned to build `A`, `assignToBuild(p1, B)` leaves `p1` inside `A`'s
embedded `photos` list while `p1.buildId` now names `B`. -/
theorem assign_breaks_consistency :
    photosConsistent dbTwoBuilds ∧
    ¬ photosConsistent (photoOperations.assignToBuild dbTwoBuilds ("p1") ("B") 7) := by decide

/-- Claim C3 counterexample: `bulkAssignToBuild` with a target build that does
not exist is not a no-op: the build store is unchanged but the listed photo's
`buildId` has still been re-pointed, contradicting all-or-nothing semantics. -/
theorem bulkAssign_missing_build_repoints :
    (photoOperations.bulkAssignToBuild dbNoBuilds ["p1"] ("B") 0).builds = dbNoBuilds.builds ∧
    (photoOperations.bulkAssignToBuild dbNoBuilds ["p1"] ("B") 0).photos ≠ dbNoBuilds.photos := by
  decide

/-- Claim C3 (amended): `bulkAssignToBuild` re-points every listed photo at
the target build unconditionally; when the target build does not exist the
build store is left unchanged (with no rollback of the photos), and when it
exists its updated copy's `photos` list contains every listed photo that is
in the store. -/
theorem bulkAssign_characterization (db : LuthierDatabase) (photoIds : List String)
    (buildId : String) (now : Int) :
    ((photoOperations.bulkAssignToBuild db photoIds buildId now).photos =
      db.photos.map (fun x => if photoIds.contains x.id
        then applyPhotoUpdate { buildId := some (some buildId) } x else x)) ∧
    (db.builds.find? (fun b => b.id == buildId) = none →
      (photoOperations.bulkAssignToBuild db photoIds buildId now).builds = db.builds) ∧
    (∀ B, db.builds.find? (fun b => b.id == buildId) = some B →
      ∃ B2 ∈ (photoOperations.bulkAssignToBuild db photoIds buildId now).builds,
        B2.id = B.id ∧
        ∀ P ∈ db.photos, photoIds.contains P.id = true →
          applyPhotoUpdate { buildId := some (some buildId) } P ∈ B2.photos) := by
  have hphotos1 : photoIds.foldl
      (fun t photoId => photosUpdate t photoId { buildId := some (some buildId) }) db.photos =
      db.photos.map (fun x => if photoIds.contains x.id
        then applyPhotoUpdate { buildId := some (some buildId) } x else x) := by
    rw [foldl_photosUpdate]
    simp only [foldStep_buildId]
  refine ⟨?_, ?_, ?_⟩
  · unfold photoOperations.bulkAssignToBuild
    cases hf : db.builds.find? (fun b => b.id == buildId) with
    | none => simp only [hf, hphotos1]
    | some B => simp only [hf, hphotos1]
  · intro hf
    unfold photoOperations.bulkAssignToBuild
    simp only [hf]
  · intro B hf
    unfold photoOperations.bulkAssignToBuild
    simp only [hf, hphotos1]
    refine ⟨applyBuildUpdate _ B, buildsUpdate_self_mem _ _ _ _ hf, rfl, ?_⟩
    intro P hP hcont
    have hmem : applyPhotoUpdate { buildId := some (some buildId) } P ∈
        db.photos.map (fun x => if photoIds.contains x.id
          then applyPhotoUpdate { buildId := some (some buildId) } x else x) :=
      List.mem_map.mpr ⟨P, hP, by rw [if_pos hcont]⟩
    show applyPhotoUpdate { buildId := some (some buildId) } P ∈
      B.photos ++ List.filter (fun p => photoIds.contains p.id) _
    exact List.mem_append_right _ (List.mem_filter.mpr ⟨hmem, hcont⟩)

/-- Witness for claim C3's amended theorem at a concrete store with no
builds. -/
theorem bulkAssign_characterization_witness :
    (photoOperations.bulkAssignToBuild dbNoBuilds ["p1"] ("B") 0).builds = dbNoBuilds.builds :=
  (bulkAssign_characterization dbNoBuilds ["p1"] ("B") 0).2.1 (by decide)

/-- Claim C4 counterexample: `assignToBuild` with a nonexistent build id does
not abort: the build store is untouched but the photo's `buildId` is still
updated, so one side of the cross-reference changes. -/
theorem assign_missing_build_updates_photo :
    (photoOperations.assignToBuild dbNoBuilds ("p1") ("X") 0).builds = dbNoBuilds.builds ∧
    (photoOperations.assignToBuild dbNoBuilds ("p1") ("X") 0).photos ≠ dbNoBuilds.photos := by
  decide

/-- Claim C4 (amended): when no build with the target id exists,
`assignToBuild` leaves the build store unchanged but still writes `buildId`
into the photo row (no abort, no rollback). -/
theorem assign_missing_build_characterization (db : LuthierDatabase)
    (photoId buildId : String) (now : Int)
    (h : db.builds.find? (fun b => b.id == buildId) = none) :
    photoOperations.assignToBuild db photoId buildId now =
      { db with photos := photosUpdate db.photos photoId { buildId := some (some buildId) } } := by
  unfold photoOperations.assignToBuild
  simp only [h]

/-- Witness for claim C4's amended theorem at a concrete store with no
builds. -/
theorem assign_missing_build_characterization_witness :
    photoOperations.assignToBuild dbNoBuilds ("p1") ("X") 0 =
      { dbNoBuilds with
          photos := photosUpdate dbNoBuilds.photos ("p1") { buildId := some (some ("X")) } } :=
  assign_missing_build_characterization dbNoBuilds ("p1") ("X") 0 (by decide)

/-- Claim C5 counterexample: with a build whose id is the empty string
(importable via `importData`), assign followed by unassign does not restore
the photo: `unassignFromBuild` tests `if (photo.buildId)` and `''` is falsy,
so the photo keeps `buildId = ''`. -/
theorem roundtrip_fails_blank_build_id :
    (photoOperations.unassignFromBuild
        (photoOperations.assignToBuild dbBlankBuild ("p1") ("") 1) ("p1") 2).photos.find?
      (fun p => p.id == "p1") = some (mkPhoto ("p1") (some (""))) := by decide

/-- Claim C5 (amended): for a photo `P` and build `B` in the store with `B`'s
id non-empty, `P.buildId` absent and no entry of `P`'s id in `B.photos`,
assigning `P` to `B` and immediately unassigning restores the stored photo
record to exactly `P` (in particular `buildId` is absent again) and leaves
every stored build of `B`'s id with no embedded entry of `P`'s id. -/
theorem assign_unassign_roundtrip (db : LuthierDatabase) (pid bid : String)
    (now1 now2 : Int) (P : Photo) (B : Build)
    (hP : db.photos.find? (fun p => p.id == pid) = some P)
    (hB : db.builds.find? (fun b => b.id == bid) = some B)
    (hPb : P.buildId = none)
    (hBP : ∀ q ∈ B.photos, q.id ≠ pid)
    (hbid : bid ≠ "") :
    ((photoOperations.unassignFromBuild
        (photoOperations.assignToBuild db pid bid now1) pid now2).photos.find?
          (fun p => p.id == pid) = some P) ∧
    (∀ B2 ∈ (photoOperations.unassignFromBuild
        (photoOperations.assignToBuild db pid bid now1) pid now2).builds,
      B2.id = bid → ∀ q ∈ B2.photos, q.id ≠ pid) := by
  have hassign : photoOperations.assignToBuild db pid bid now1 =
      { db with photos := photosUpdate db.photos pid { buildId := some (some bid) },
                builds := buildsUpdate db.builds bid
                  { photos := some (B.photos ++
                      [applyPhotoUpdate { buildId := some (some bid) } P]),
                    updatedAt := some now1 } } := by
    unfold photoOperations.assignToBuild
    simp only [hB, find?_photosUpdate, hP, Option.map_some']
  have hfindP : (photosUpdate db.photos pid { buildId := some (some bid) }).find? (fun p => p.id == pid) = some (applyPhotoUpdate { buildId := some (some bid) } P) := by
    rw [find?_photosUpdate, hP, Option.map_some']
  have hfindB : (buildsUpdate db.builds bid { photos := some (B.photos ++ [applyPhotoUpdate { buildId := some (some bid) } P]), updatedAt := some now1 }).find? (fun b => b.id == bid) = some (applyBuildUpdate { photos := some (B.photos ++ [applyPhotoUpdate { buildId := some (some bid) } P]), updatedAt := some now1 } B) := by
    rw [find?_buildsUpdate, hB, Option.map_some']
  have hunassign := unassign_found { db with photos := photosUpdate db.photos pid { buildId := some (some bid) }, builds := buildsUpdate db.builds bid { photos := some (B.photos ++ [applyPhotoUpdate { buildId := some (some bid) } P]), updatedAt := some now1 } } pid now2 (applyPhotoUpdate { buildId := some (some bid) } P) bid (applyBuildUpdate { photos := some (B.photos ++ [applyPhotoUpdate { buildId := some (some bid) } P]), updatedAt := some now1 } B) hfindP rfl hbid hfindB
  rw [hassign, hunassign]
  constructor
  · show (photosUpdate (photosUpdate db.photos pid { buildId := some (some bid) }) pid { buildId := some none }).find? (fun p => p.id == pid) = some P
    rw [find?_photosUpdate, find?_photosUpdate, hP, Option.map_some', Option.map_some']
    obtain ⟨i, g, u, th, ts, f, b, c, sd, po, m⟩ := P
    simp only at hPb
    simp [applyPhotoUpdate, hPb]
  · intro B2 hB2 hB2id q hq
    have hB2' := mem_buildsUpdate _ _ _ _ hB2
    rcases hB2' with ⟨b, _, hbne, rfl⟩ | ⟨b, _, hbeq, rfl⟩
    · exact absurd hB2id (by simpa using hbne)
    · have hqf : q ∈ ((applyBuildUpdate { photos := some (B.photos ++ [applyPhotoUpdate { buildId := some (some bid) } P]), updatedAt := some now1 } B).photos.filter (fun p => p.id != pid)) := hq
      exact bne_iff_ne.mp (List.mem_filter.mp hqf).2

/-- Witness for claim C5's amended theorem: one build `B`, one unassigned
photo `p1`; assign then unassign restores the photo record. -/
theorem assign_unassign_roundtrip_witness :
    (photoOperations.unassignFromBuild
        (photoOperations.assignToBuild dbOneBuild ("p1") ("B") 1) ("p1") 2).photos.find?
      (fun p => p.id == "p1") = some (mkPhoto ("p1") none) :=
  (assign_unassign_roundtrip dbOneBuild ("p1") ("B") 1 2 (mkPhoto ("p1") none)
    (mkBuild ("B") []) (by decide) (by decide) rfl (by decide) (by decide)).1

/-- Claim C6: `exportData` then `clearAll` then `importData` of the snapshot
reproduces the original build, photo, template and calendar-event tables
field-for-field (given the store's primary keys are unique, as IndexedDB
guarantees). -/
theorem export_clear_import (db : LuthierDatabase)
    (hb : (db.builds.map Build.id).Nodup) (hp : (db.photos.map Photo.id).Nodup)
    (ht : (db.contentTemplates.map ContentTemplate.id).Nodup)
    (he : (db.calendarEvents.map CalendarEvent.id).Nodup) :
    (dbUtils.importData (dbUtils.clearAll db)
      { builds := some (dbUtils.exportData db).builds,
        photos := some (dbUtils.exportData db).photos,
        templates := some (dbUtils.exportData db).templates,
        events := some (dbUtils.exportData db).events }).builds = db.builds ∧
    (dbUtils.importData (dbUtils.clearAll db)
      { builds := some (dbUtils.exportData db).builds,
        photos := some (dbUtils.exportData db).photos,
        templates := some (dbUtils.exportData db).templates,
        events := some (dbUtils.exportData db).events }).photos = db.photos ∧
    (dbUtils.importData (dbUtils.clearAll db)
      { builds := some (dbUtils.exportData db).builds,
        photos := some (dbUtils.exportData db).photos,
        templates := some (dbUtils.exportData db).templates,
        events := some (dbUtils.exportData db).events }).contentTemplates = db.contentTemplates ∧
    (dbUtils.importData (dbUtils.clearAll db)
      { builds := some (dbUtils.exportData db).builds,
        photos := some (dbUtils.exportData db).photos,
        templates := some (dbUtils.exportData db).templates,
        events := some (dbUtils.exportData db).events }).calendarEvents = db.calendarEvents := by
  unfold dbUtils.importData dbUtils.clearAll dbUtils.exportData
  refine ⟨?_, ?_, ?_, ?_⟩ <;>
    simp only [] <;>
    apply bulkAdd_of_nodup <;>
    simpa

/-- Witness for claim C6 at a concrete populated store. -/
theorem export_clear_import_witness :
    (dbUtils.importData (dbUtils.clearAll dbSampleFull)
      { builds := some (dbUtils.exportData dbSampleFull).builds,
        photos := some (dbUtils.exportData dbSampleFull).photos,
        templates := some (dbUtils.exportData dbSampleFull).templates,
        events := some (dbUtils.exportData dbSampleFull).events }).builds = dbSampleFull.builds :=
  (export_clear_import dbSampleFull (by decide) (by decide) (by decide) (by decide)).1

/-- Claim C7 counterexample: with one photo whose `buildId` is present but
equal to the empty string, `getStats` counts 0 assigned photos even though
one photo has its `buildId` set. -/
theorem getStats_blank_ref :
    (dbUtils.getStats dbBlankRef).assignedPhotos
      ≠ (dbBlankRef.photos.filter (fun p => p.buildId != none)).length := by decide

/-- Claim C7 (amended): `getStats` returns the build count, the photo count,
an assigned count equal to the number of photos whose `buildId` is a
non-empty string (truthy), the unassigned count as total minus assigned, and
the calendar-event count. -/
theorem getStats_characterization (db : LuthierDatabase) :
    dbUtils.getStats db =
      { totalBuilds := db.builds.length
        totalPhotos := db.photos.length
        assignedPhotos := (db.photos.filter (fun p => jsTruthy p.buildId)).length
        unassignedPhotos :=
          db.photos.length - (db.photos.filter (fun p => jsTruthy p.buildId)).length
        scheduledPosts := db.calendarEvents.length } := by
  have hf : db.photos.filter (fun p => keyAbove p.buildId (""))
      = db.photos.filter (fun p => jsTruthy p.buildId) :=
    List.filter_congr (fun p _ => keyAbove_blank p.buildId)
  unfold dbUtils.getStats
  rw [hf]

/-- Claim C8: an event is returned by `getByDate(d)` exactly when it is stored
and falls on the same local calendar day as `d` (the 00:00:00.000 to
23:59:59.999 window, both bounds inclusive), and `getByDateRange` uses
inclusive bounds on both ends, for any fixed local-time offset `tz`. -/
theorem calendar_query_windows (tz d start stop : Int) (db : LuthierDatabase)
    (e : CalendarEvent) :
    (e ∈ calendarOperations.getByDate tz db d ↔
      e ∈ db.calendarEvents ∧ localDay tz e.date = localDay tz d) ∧
    (e ∈ calendarOperations.getByDateRange db start stop ↔
      e ∈ db.calendarEvents ∧ start ≤ e.date ∧ e.date ≤ stop) := by
  constructor
  · unfold calendarOperations.getByDate calendarOperations.between startOfDay endOfDay localDay
      msPerDay
    rw [List.mem_filter]
    simp only [if_true, Bool.and_eq_true, decide_eq_true_eq]
    exact and_congr_right fun _ => by simp only [startOfDay, msPerDay]; omega
  · unfold calendarOperations.getByDateRange calendarOperations.between
    rw [List.mem_filter]
    simp only [if_true, Bool.and_eq_true, decide_eq_true_eq]

/-- Claim C9: `getUnassigned` selects the photos with falsy `buildId` (absent
or empty string) while `filter {isAssigned := false}` selects exactly those
with `buildId` strictly absent; on a store containing an empty-string
back-reference the two disagree, and they coincide whenever every `buildId`
is absent or a non-empty string. -/
theorem unassigned_vs_filter (db : LuthierDatabase) :
    (photoOperations.getUnassigned db
      = db.photos.filter (fun p => p.buildId == none || p.buildId == some "")) ∧
    (photoOperations.filter db { isAssigned := some false }
      = db.photos.filter (fun p => p.buildId == none)) ∧
    (photoOperations.getUnassigned dbBlankRef
      ≠ photoOperations.filter dbBlankRef { isAssigned := some false }) ∧
    ((∀ p ∈ db.photos, p.buildId ≠ some "") →
      photoOperations.getUnassigned db = photoOperations.filter db { isAssigned := some false }) := by
  have h2 : photoOperations.filter db { isAssigned := some false }
      = db.photos.filter (fun p => p.buildId == none) := rfl
  refine ⟨?_, h2, by decide, ?_⟩
  · unfold photoOperations.getUnassigned
    apply List.filter_congr
    intro p _
    cases hb : p.buildId with
    | none => rfl
    | some s =>
      rcases eq_or_ne s ("") with rfl | hs
      · rfl
      · simp [jsTruthy, hs, bne]
  · intro hclean
    rw [h2]
    unfold photoOperations.getUnassigned
    apply List.filter_congr
    intro p hp
    cases hb : p.buildId with
    | none => rfl
    | some s =>
      have hs : s ≠ "" := by
        intro hse
        exact hclean p hp (by rw [hb, hse])
      simp [jsTruthy, hs, bne]

/-- Witness for claim C9's coincidence clause at a concrete store whose only
photo has a non-empty `buildId`. -/
theorem unassigned_vs_filter_witness :
    photoOperations.getUnassigned dbSampleFull
      = photoOperations.filter dbSampleFull { isAssigned := some false } :=
  (unassigned_vs_filter dbSampleFull).2.2.2 (by decide)

/-- Claim C10: `unassignFromBuild` on a photo id that is missing from the
store, or whose stored photo has no `buildId`, is a silent no-op: the whole
database is returned unchanged. -/
theorem unassign_noop (db : LuthierDatabase) (photoId : String) (now : Int)
    (h : db.photos.find? (fun p => p.id == photoId) = none ∨
      ∃ P, db.photos.find? (fun p => p.id == photoId) = some P ∧ P.buildId = none) :
    photoOperations.unassignFromBuild db photoId now = db := by
  unfold photoOperations.unassignFromBuild
  rcases h with h | ⟨P, hP, hb⟩
  · rw [h]
  · simp [hP, hb, jsTruthy]

/-- Witness for claim C10 at a concrete store: an existing unassigned photo
and a missing photo id are both no-ops. -/
theorem unassign_noop_witness :
    photoOperations.unassignFromBuild dbNoBuilds ("p1") 3 = dbNoBuilds ∧
    photoOperations.unassignFromBuild dbNoBuilds ("zz") 3 = dbNoBuilds :=
  ⟨unassign_noop dbNoBuilds ("p1") 3 (Or.inr ⟨mkPhoto ("p1") none, by decide, rfl⟩),
   unassign_noop dbNoBuilds ("zz") 3 (Or.inl (by decide))⟩

end LuthierGram
